import Mathlib

/-!
# Verification of the WeWear relay server (`src/server.js`)

Shallow embedding of the observable behaviour of the Express relay server:
the two SSE status-streaming endpoints (`GET /events/:taskId`, polling the
Meshy provider, and `GET /fashn/events/:id`, polling the FASHN provider),
the two job-submission translators (`POST /image-to-3d`,
`POST /fashn/tryon`), and the download relay (`GET /download`).

JavaScript runtime facts that the embedding captures:

* `setInterval(async cb, 2000)` fires `cb` every 2000 ms while the interval
  is not cleared, regardless of whether a previous invocation of `cb` is
  still awaiting; each invocation runs synchronously up to its first
  `await`, and the continuation after the `await` runs atomically when the
  awaited promise settles (single-threaded event loop).
* `res.write` after `res.end()` or after the client disconnected delivers
  nothing to the subscriber; the write attempt still happens in the handler.
* `Number(s)`, `Math.min` / `Math.max` follow IEEE semantics with `NaN`
  propagation; we model the JS number as an exact rational plus the special
  values `NaN`, `Infinity`, `-Infinity` (no rounding occurs for the small
  values the server manipulates).
-/

namespace WeWear

/-- A JSON status envelope returned by a provider's status endpoint.
`status` is the `status` field (`none` when absent); `rest` abstracts the
remaining fields of the envelope, so that two envelopes with the same
status can still differ. -/
structure JobStatus where
  status : Option String
  rest : Nat
deriving DecidableEq, Repr

/-- JS truthiness of an optional string field (`undefined` and `""` are
falsy). -/
def jsTruthyStr : Option String → Bool
  | none => false
  | some s => !(s == "")

/-- `data.status && ["SUCCEEDED", "FAILED", "CANCELED"].includes(data.status)`
(server.js line 227). -/
def meshyIsTerminal (d : JobStatus) : Bool :=
  jsTruthyStr d.status &&
    (d.status == some "SUCCEEDED" || d.status == some "FAILED" ||
      d.status == some "CANCELED")

/-- `data.status && (data.status === "completed" || data.status === "failed")`
(server.js line 169). -/
def fashnIsTerminal (d : JobStatus) : Bool :=
  jsTruthyStr d.status &&
    (d.status == some "completed" || d.status == some "failed")

/-- An SSE event written by a stream handler: an unnamed `data:` message,
an `event: finished` message, or an `event: error` message carrying
`{ message }`. -/
inductive Event where
  | message (d : JobStatus)
  | finished (d : JobStatus)
  | error (msg : String)
deriving DecidableEq, Repr

/-- The observable state of one stream session (one open request to
`GET /events/:taskId` or `GET /fashn/events/:id`).

* `stopped` — the handler's `stopped` flag;
* `cleared` — `clearInterval(interval)` has been called;
* `ended` — the handler called `res.end()`;
* `disconnected` — the client closed the connection (`req.on("close")`);
* `inflight` — number of `axios.get` status fetches currently awaiting;
* `log` — every `res.write` the handler performed, in order, paired with
  whether the response channel was already closed (`ended` or
  `disconnected`) at the moment of the write.  A write on a closed channel
  delivers nothing to the subscriber. -/
structure Session where
  stopped : Bool := false
  cleared : Bool := false
  ended : Bool := false
  disconnected : Bool := false
  inflight : Nat := 0
  log : List (Event × Bool) := []
deriving DecidableEq, Repr

namespace Session

/-- The session state right after the SSE handler ran its synchronous
prologue (headers set, `stopped = false`, `setInterval` armed). -/
def init : Session := {}

/-- `res.write(e)`: record the write, tagged with whether the channel was
closed at that moment. -/
def write (s : Session) (e : Event) : Session :=
  { s with log := s.log ++ [(e, s.ended || s.disconnected)] }

/-- `res.end()`. -/
def endRes (s : Session) : Session := { s with ended := true }

/-- The events actually delivered to the subscriber: writes performed while
the channel was still open. -/
def delivered (s : Session) : List Event :=
  (s.log.filter (fun p => !p.2)).map Prod.fst

end Session

/-- Continuation of the `GET /events/:taskId` interval callback after a
successful fetch (server.js lines 219–232): write the whole envelope as a
`data:` message; if the status is Meshy-terminal, clear the interval, set
`stopped`, write the `finished` event, and end the response.
Generic in the terminal test so the same lemmas serve both providers. -/
def onPollOk (term : JobStatus → Bool) (s : Session) (d : JobStatus) : Session :=
  let s := s.write (.message d)
  if term d then
    let s := { s with cleared := true, stopped := true }
    let s := s.write (.finished d)
    s.endRes
  else s

/-- Continuation of the `GET /events/:taskId` interval callback after a
failed fetch (server.js lines 233–238): clear the interval, set `stopped`,
write the `error` event with `{ message }`, end the response. -/
def onPollErr (s : Session) (msg : String) : Session :=
  let s := { s with cleared := true, stopped := true }
  let s := s.write (.error msg)
  s.endRes

/-- Continuation of the `GET /fashn/events/:id` interval callback after a
successful fetch (server.js lines 166–174).  Identical to the Meshy handler
except for the terminal set and for writing `finished` *before* setting the
flags. -/
def fashnOnPollOk (s : Session) (d : JobStatus) : Session :=
  let s := s.write (.message d)
  if fashnIsTerminal d then
    let s := s.write (.finished d)
    let s := { s with cleared := true, stopped := true }
    s.endRes
  else s

/-- Continuation of the `GET /fashn/events/:id` interval callback after a
failed fetch (server.js lines 175–180): write the `error` event, clear the
interval, set `stopped`, end the response. -/
def fashnOnPollErr (s : Session) (msg : String) : Session :=
  let s := s.write (.error msg)
  let s := { s with cleared := true, stopped := true }
  s.endRes

/-- `req.on("close", ...)` handler of both SSE endpoints (server.js
lines 183–186 and 241–244): set `stopped`, clear the interval.  The
transport also marks the channel closed. -/
def onClose (s : Session) : Session :=
  { s with stopped := true, cleared := true, disconnected := true }

/-- Atomic event-loop turns that can affect one stream session. -/
inductive Act where
  /-- The interval fires: the callback runs `if (stopped) return;` and, if
  not stopped, starts an `axios.get` fetch (up to its `await`). -/
  | tick
  /-- An awaited fetch resolves with envelope `d`; the callback's
  continuation (the `try` body after the `await`) runs atomically. -/
  | pollOk (d : JobStatus)
  /-- An awaited fetch rejects with message `msg`; the `catch` block runs
  atomically. -/
  | pollErr (msg : String)
  /-- The subscriber disconnects; the `close` handler runs. -/
  | disconnect
deriving DecidableEq, Repr

/-- One event-loop turn of a stream session, generic in the provider's
terminal test.  `none` means the turn cannot occur in that state: the
interval no longer fires once cleared, and a fetch can only settle if one
is in flight. -/
def step (term : JobStatus → Bool) (s : Session) : Act → Option Session
  | .tick =>
      if s.cleared then none
      else some (if s.stopped then s else { s with inflight := s.inflight + 1 })
  | .pollOk d =>
      if s.inflight = 0 then none
      else some (onPollOk term { s with inflight := s.inflight - 1 } d)
  | .pollErr msg =>
      if s.inflight = 0 then none
      else some (onPollErr { s with inflight := s.inflight - 1 } msg)
  | .disconnect => some (onClose s)

/-- One event-loop turn of a `GET /fashn/events/:id` session, with the
handler bodies exactly as written in the FASHN endpoint. -/
def fashnStep (s : Session) : Act → Option Session
  | .tick =>
      if s.cleared then none
      else some (if s.stopped then s else { s with inflight := s.inflight + 1 })
  | .pollOk d =>
      if s.inflight = 0 then none
      else some (fashnOnPollOk { s with inflight := s.inflight - 1 } d)
  | .pollErr msg =>
      if s.inflight = 0 then none
      else some (fashnOnPollErr { s with inflight := s.inflight - 1 } msg)
  | .disconnect => some (onClose s)

/-- Run a list of event-loop turns from a state; `none` if some turn is
impossible. -/
def runFrom (term : JobStatus → Bool) (s : Session) : List Act → Option Session
  | [] => some s
  | a :: rest =>
      match step term s a with
      | none => none
      | some s' => runFrom term s' rest

/-- A full execution of a `GET /events/:taskId` session from subscription. -/
def runMeshy (acts : List Act) : Option Session :=
  runFrom meshyIsTerminal Session.init acts

/-- `runFrom` specialised to the FASHN step function. -/
def fashnRunFrom (s : Session) : List Act → Option Session
  | [] => some s
  | a :: rest =>
      match fashnStep s a with
      | none => none
      | some s' => fashnRunFrom s' rest

/-- A full execution of a `GET /fashn/events/:id` session from
subscription. -/
def runFashn (acts : List Act) : Option Session :=
  fashnRunFrom Session.init acts

/-- The FASHN handler bodies coincide, state for state, with the generic
step at the FASHN terminal test: writing `finished` before or after setting
the `stopped`/`cleared` flags produces the same session state, because
`res.write` does not read those flags. -/
theorem fashnStep_eq_step (s : Session) (a : Act) :
    fashnStep s a = step fashnIsTerminal s a := by
  cases a with
  | tick => rfl
  | pollOk d =>
      simp only [fashnStep, step, fashnOnPollOk, onPollOk, Session.write,
        Session.endRes]
  | pollErr msg =>
      simp only [fashnStep, step, fashnOnPollErr, onPollErr, Session.write,
        Session.endRes]
  | disconnect => rfl

theorem fashnRunFrom_eq_runFrom (acts : List Act) (s : Session) :
    fashnRunFrom s acts = runFrom fashnIsTerminal s acts := by
  induction acts generalizing s with
  | nil => rfl
  | cons a rest ih =>
      simp only [fashnRunFrom, runFrom, fashnStep_eq_step]
      cases step fashnIsTerminal s a <;> simp [ih]

theorem runFashn_eq (acts : List Act) :
    runFashn acts = runFrom fashnIsTerminal Session.init acts :=
  fashnRunFrom_eq_runFrom acts Session.init

/-! ## Invariants of the stream-session semantics -/

/-- Classifier for `finished` events. -/
def Event.isFinished : Event → Bool
  | .finished _ => true
  | _ => false

/-- Classifier for `error` events. -/
def Event.isError : Event → Bool
  | .error _ => true
  | _ => false

theorem delivered_append (s : Session) (es : List (Event × Bool)) :
    Session.delivered { s with log := s.log ++ es } =
      s.delivered ++ (es.filter (fun p => !p.2)).map Prod.fst := by
  simp [Session.delivered, List.filter_append]

/-- The four lifecycle flags only ever move from `false` to `true`, and a
step never removes log entries. -/
theorem step_mono {term : JobStatus → Bool} {s s' : Session} {a : Act}
    (h : step term s a = some s') :
    (s.ended = true → s'.ended = true) ∧
    (s.disconnected = true → s'.disconnected = true) ∧
    (s.cleared = true → s'.cleared = true) ∧
    (s.stopped = true → s'.stopped = true) := by
  cases a with
  | tick =>
      simp only [step] at h
      split at h
      · exact absurd h (by simp)
      · split at h <;> (injection h with h; subst h; simp_all)
  | pollOk d =>
      simp only [step] at h
      split at h
      · exact absurd h (by simp)
      · injection h with h
        subst h
        simp only [onPollOk, Session.write, Session.endRes]
        split <;> simp
  | pollErr msg =>
      simp only [step] at h
      split at h
      · exact absurd h (by simp)
      · injection h with h
        subst h
        simp [onPollErr, Session.write, Session.endRes]
  | disconnect =>
      simp only [step] at h
      injection h with h
      subst h
      simp [onClose]

/-- On a closed channel (response ended or subscriber disconnected) no step
delivers anything: every write is tagged closed, so `delivered` is
unchanged, and the channel stays closed. -/
theorem step_closed {term : JobStatus → Bool} {s s' : Session} {a : Act}
    (hc : (s.ended || s.disconnected) = true)
    (h : step term s a = some s') :
    (s'.ended || s'.disconnected) = true ∧ s'.delivered = s.delivered := by
  cases a with
  | tick =>
      simp only [step] at h
      split at h
      · exact absurd h (by simp)
      · split at h <;> (injection h with h; subst h; simp_all [Session.delivered])
  | pollOk d =>
      simp only [step] at h
      split at h
      · exact absurd h (by simp)
      · injection h with h
        subst h
        simp only [onPollOk, Session.write, Session.endRes]
        split <;>
          simp_all [Session.delivered, List.filter_append]
        intro hx
        simp_all
  | pollErr msg =>
      simp only [step] at h
      split at h
      · exact absurd h (by simp)
      · injection h with h
        subst h
        simp_all [onPollErr, Session.write, Session.endRes, Session.delivered,
          List.filter_append]
        intro hx
        simp_all
  | disconnect =>
      simp only [step] at h
      injection h with h
      subst h
      simp_all [onClose, Session.delivered]

theorem runFrom_append (term : JobStatus → Bool) (l₁ l₂ : List Act)
    (s : Session) :
    runFrom term s (l₁ ++ l₂) =
      match runFrom term s l₁ with
      | none => none
      | some s' => runFrom term s' l₂ := by
  induction l₁ generalizing s with
  | nil => simp [runFrom]
  | cons a rest ih =>
      simp only [List.cons_append, runFrom]
      cases step term s a <;> simp [ih]

/-- `delivered` is frozen from the first moment the channel is closed. -/
theorem runFrom_closed {term : JobStatus → Bool} {s s' : Session}
    {acts : List Act}
    (hc : (s.ended || s.disconnected) = true)
    (h : runFrom term s acts = some s') :
    (s'.ended || s'.disconnected) = true ∧ s'.delivered = s.delivered := by
  induction acts generalizing s with
  | nil =>
      simp only [runFrom] at h
      injection h with h
      subst h
      exact ⟨hc, rfl⟩
  | cons a rest ih =>
      simp only [runFrom] at h
      cases hs : step term s a with
      | none => rw [hs] at h; exact absurd h (by simp)
      | some s₁ =>
          rw [hs] at h
          obtain ⟨hc₁, hd₁⟩ := step_closed hc hs
          obtain ⟨hc₂, hd₂⟩ := ih hc₁ h
          exact ⟨hc₂, hd₂.trans hd₁⟩

theorem runFrom_mono {term : JobStatus → Bool} {s s' : Session}
    {acts : List Act} (h : runFrom term s acts = some s') :
    (s.ended = true → s'.ended = true) ∧
    (s.cleared = true → s'.cleared = true) := by
  induction acts generalizing s with
  | nil =>
      simp only [runFrom] at h
      injection h with h
      subst h
      exact ⟨id, id⟩
  | cons a rest ih =>
      simp only [runFrom] at h
      cases hs : step term s a with
      | none => rw [hs] at h; exact absurd h (by simp)
      | some s₁ =>
          rw [hs] at h
          obtain ⟨he, _, hcl, _⟩ := step_mono hs
          obtain ⟨he', hcl'⟩ := ih h
          exact ⟨fun hx => he' (he hx), fun hx => hcl' (hcl hx)⟩

/-- A successful poll that finds a terminal status, on an open channel:
the handler delivers the envelope as a `data:` message and once as a
`finished` event, then ends the response and clears the interval. -/
theorem onPollOk_terminal {term : JobStatus → Bool} {s : Session}
    {d : JobStatus} (he : s.ended = false) (hd : s.disconnected = false)
    (ht : term d = true) :
    onPollOk term s d =
      { s with stopped := true, cleared := true, ended := true,
               log := s.log ++ [(.message d, false), (.finished d, false)] } := by
  simp [onPollOk, Session.write, Session.endRes, he, hd, ht]

/-- A failed poll on an open channel: the handler clears the interval,
delivers one `error` event carrying the failure message, and ends the
response. -/
theorem onPollErr_eq {s : Session} {msg : String}
    (he : s.ended = false) (hd : s.disconnected = false) :
    onPollErr s msg =
      { s with stopped := true, cleared := true, ended := true,
               log := s.log ++ [(.error msg, false)] } := by
  simp [onPollErr, Session.write, Session.endRes, he, hd]

/-- While the response has not been ended, no `finished` and no `error`
event has been delivered (each of those writes ends the response in the
same event-loop turn). -/
def OpenNoTerminalEvents (s : Session) : Prop :=
  s.ended = false →
    s.delivered.filter Event.isFinished = [] ∧
    s.delivered.filter Event.isError = []

theorem step_openNoTerminalEvents {term : JobStatus → Bool} {s s' : Session}
    {a : Act} (h : step term s a = some s')
    (inv : OpenNoTerminalEvents s) : OpenNoTerminalEvents s' := by
  cases a with
  | tick =>
      simp only [step] at h
      split at h
      · exact absurd h (by simp)
      · split at h <;> (injection h with h; subst h)
        · exact inv
        · intro he
          exact inv he
  | pollOk d =>
      simp only [step] at h
      split at h
      · exact absurd h (by simp)
      · injection h with h
        subst h
        simp only [onPollOk]
        split
        · intro he
          exact absurd he (by simp [Session.write, Session.endRes])
        · intro he
          simp only [Session.write] at he
          have hinv := inv he
          simp only [Session.delivered, List.filter_append, List.map_append,
            List.filter_map] at hinv ⊢
          cases hcl : (s.ended || s.disconnected) <;>
            simp_all [Session.write, Event.isFinished, Event.isError]
  | pollErr msg =>
      simp only [step] at h
      split at h
      · exact absurd h (by simp)
      · injection h with h
        subst h
        intro he
        exact absurd he (by simp [onPollErr, Session.write, Session.endRes])
  | disconnect =>
      simp only [step] at h
      injection h with h
      subst h
      intro he
      simp only [onClose] at he
      exact inv he

theorem runFrom_openNoTerminalEvents {term : JobStatus → Bool}
    {s s' : Session} {acts : List Act}
    (h : runFrom term s acts = some s') (inv : OpenNoTerminalEvents s) :
    OpenNoTerminalEvents s' := by
  induction acts generalizing s with
  | nil =>
      simp only [runFrom] at h
      injection h with h
      subst h
      exact inv
  | cons a rest ih =>
      simp only [runFrom] at h
      cases hs : step term s a with
      | none => rw [hs] at h; exact absurd h (by simp)
      | some s₁ =>
          rw [hs] at h
          exact ih h (step_openNoTerminalEvents hs inv)

theorem init_openNoTerminalEvents : OpenNoTerminalEvents Session.init := by
  intro _
  constructor <;> rfl

/-- Core lemma behind the terminal-status claim, generic in the provider's
terminal test: if a session reaches state `s` with the channel still open
and a fetch then completes with a terminal status, the subscriber receives
that envelope as a `data:` message followed by exactly one `finished`
event, the response is ended, and no continuation of the execution delivers
anything further. -/
theorem finished_once_from (term : JobStatus → Bool) (acts₁ : List Act)
    (d : JobStatus) (acts₂ : List Act) (s s'' : Session)
    (h₁ : runFrom term Session.init acts₁ = some s)
    (he : s.ended = false) (hd : s.disconnected = false)
    (ht : term d = true)
    (h₂ : runFrom term Session.init (acts₁ ++ Act.pollOk d :: acts₂) = some s'') :
    s''.delivered = s.delivered ++ [Event.message d, Event.finished d] ∧
    s''.delivered.filter Event.isFinished = [Event.finished d] ∧
    s''.ended = true := by
  rw [runFrom_append, h₁] at h₂
  simp only [runFrom] at h₂
  by_cases hz : s.inflight = 0
  · simp [step, hz] at h₂
  · simp only [step, if_neg hz] at h₂
    rw [onPollOk_terminal (s := { s with inflight := s.inflight - 1 }) he hd ht]
      at h₂
    obtain ⟨_, hdel⟩ := runFrom_closed (by simp) h₂
    obtain ⟨hend, _⟩ := runFrom_mono h₂
    have hdel₁ : s''.delivered = s.delivered ++ [Event.message d, Event.finished d] := by
      rw [hdel]
      simp [Session.delivered, List.filter_append]
    refine ⟨hdel₁, ?_, hend (by simp)⟩
    have hinv := runFrom_openNoTerminalEvents h₁ init_openNoTerminalEvents
    have hfin := (hinv he).1
    rw [hdel₁, List.filter_append, hfin]
    simp [Event.isFinished]

/-- Once the interval has been cleared, no execution can ever contain a
further timer tick. -/
theorem runFrom_cleared_tick {term : JobStatus → Bool} {s : Session}
    (hc : s.cleared = true) (pre : List Act) :
    runFrom term s (pre ++ [Act.tick]) = none := by
  rw [runFrom_append]
  cases hrun : runFrom term s pre with
  | none => rfl
  | some sMid =>
      have hcl := (runFrom_mono hrun).2 hc
      simp [runFrom, step, hcl]

/-- Core lemma behind the poll-failure claim: if a fetch rejects while the
channel is open, the subscriber receives exactly one `error` event carrying
the failure message, the response is ended, the interval is cleared, no
continuation delivers anything further, and no further tick (hence no
retry) can ever occur. -/
theorem error_once_from (term : JobStatus → Bool) (acts₁ : List Act)
    (msg : String) (acts₂ : List Act) (s s'' : Session)
    (h₁ : runFrom term Session.init acts₁ = some s)
    (he : s.ended = false) (hd : s.disconnected = false)
    (h₂ : runFrom term Session.init (acts₁ ++ Act.pollErr msg :: acts₂) = some s'') :
    s''.delivered = s.delivered ++ [Event.error msg] ∧
    s''.delivered.filter Event.isError = [Event.error msg] ∧
    s''.ended = true ∧ s''.cleared = true ∧
    (∀ pre : List Act,
      runFrom term Session.init (acts₁ ++ Act.pollErr msg :: (pre ++ [Act.tick])) =
        none) := by
  rw [runFrom_append, h₁] at h₂
  simp only [runFrom] at h₂
  by_cases hz : s.inflight = 0
  · simp [step, hz] at h₂
  · simp only [step, if_neg hz] at h₂
    rw [onPollErr_eq (s := { s with inflight := s.inflight - 1 }) he hd] at h₂
    obtain ⟨_, hdel⟩ := runFrom_closed (by simp) h₂
    obtain ⟨hend, hcl⟩ := runFrom_mono h₂
    have hdel₁ : s''.delivered = s.delivered ++ [Event.error msg] := by
      rw [hdel]
      simp [Session.delivered, List.filter_append]
    refine ⟨hdel₁, ?_, hend (by simp), hcl (by simp), ?_⟩
    · have hinv := runFrom_openNoTerminalEvents h₁ init_openNoTerminalEvents
      have herr := (hinv he).2
      rw [hdel₁, List.filter_append, herr]
      simp [Event.isError]
    · intro pre
      rw [runFrom_append, h₁]
      simp only [runFrom, step, if_neg hz]
      rw [onPollErr_eq (s := { s with inflight := s.inflight - 1 }) he hd]
      exact runFrom_cleared_tick (by simp) pre

/-- Core lemma behind the disconnect claim: after the subscriber
disconnects, nothing further is ever delivered and no further tick can
occur — but note that this says nothing about write *attempts*, which the
handler still performs for in-flight fetches. -/
theorem disconnect_freezes (term : JobStatus → Bool) (acts₁ acts₂ : List Act)
    (s s'' : Session)
    (h₁ : runFrom term Session.init acts₁ = some s)
    (h₂ : runFrom term Session.init (acts₁ ++ Act.disconnect :: acts₂) = some s'') :
    s''.delivered = s.delivered ∧
    (∀ pre : List Act,
      runFrom term Session.init (acts₁ ++ Act.disconnect :: (pre ++ [Act.tick])) =
        none) := by
  rw [runFrom_append, h₁] at h₂
  simp only [runFrom, step] at h₂
  obtain ⟨_, hdel⟩ := runFrom_closed (s := onClose s) (by simp [onClose]) h₂
  constructor
  · rw [hdel]
    rfl
  · intro pre
    rw [runFrom_append, h₁]
    simp only [runFrom, step]
    exact runFrom_cleared_tick (by simp [onClose]) pre

/-! ## Concrete runs used by witnesses and counterexamples -/

/-- A Meshy envelope with terminal status `SUCCEEDED`. -/
def dSucceeded : JobStatus := ⟨some "SUCCEEDED", 0⟩

/-- A Meshy envelope with the non-terminal status `PENDING`. -/
def dPending : JobStatus := ⟨some "PENDING", 0⟩

/-- Session state after the first timer tick: one fetch in flight. -/
def afterOneTick : Session := { inflight := 1 }

/-- Session state after the first fetch came back `SUCCEEDED`. -/
def meshyDoneState : Session :=
  { stopped := true, cleared := true, ended := true, inflight := 0,
    log := [(.message dSucceeded, false), (.finished dSucceeded, false)] }

/-- Session state after the first fetch rejected with message `boom`. -/
def meshyErrState : Session :=
  { stopped := true, cleared := true, ended := true, inflight := 0,
    log := [(.error "boom", false)] }

/-! ## Claims C1–C5 -/

/-- C1: on both SSE streams, when a poll returns a status in the provider's
terminal set while the channel is open, the subscriber receives the
envelope as a `data:` message followed by exactly one `finished` event
carrying the same envelope, the stream is then closed (`res.end()`), and no
continuation of the session delivers any further event of any kind. -/
theorem claim_c1_terminal_finished_once :
    (∀ (acts₁ : List Act) (d : JobStatus) (acts₂ : List Act) (s s'' : Session),
      runMeshy acts₁ = some s → s.ended = false → s.disconnected = false →
      meshyIsTerminal d = true →
      runMeshy (acts₁ ++ Act.pollOk d :: acts₂) = some s'' →
      s''.delivered = s.delivered ++ [Event.message d, Event.finished d] ∧
      s''.delivered.filter Event.isFinished = [Event.finished d] ∧
      s''.ended = true) ∧
    (∀ (acts₁ : List Act) (d : JobStatus) (acts₂ : List Act) (s s'' : Session),
      runFashn acts₁ = some s → s.ended = false → s.disconnected = false →
      fashnIsTerminal d = true →
      runFashn (acts₁ ++ Act.pollOk d :: acts₂) = some s'' →
      s''.delivered = s.delivered ++ [Event.message d, Event.finished d] ∧
      s''.delivered.filter Event.isFinished = [Event.finished d] ∧
      s''.ended = true) := by
  constructor
  · intro acts₁ d acts₂ s s'' h₁ he hd ht h₂
    exact finished_once_from meshyIsTerminal acts₁ d acts₂ s s'' h₁ he hd ht h₂
  · intro acts₁ d acts₂ s s'' h₁ he hd ht h₂
    rw [runFashn_eq] at h₁ h₂
    exact finished_once_from fashnIsTerminal acts₁ d acts₂ s s'' h₁ he hd ht h₂

theorem claim_c1_terminal_finished_once_witness :
    meshyDoneState.delivered =
      afterOneTick.delivered ++ [Event.message dSucceeded, Event.finished dSucceeded] ∧
    meshyDoneState.delivered.filter Event.isFinished = [Event.finished dSucceeded] ∧
    meshyDoneState.ended = true :=
  claim_c1_terminal_finished_once.1 [Act.tick] dSucceeded [] afterOneTick
    meshyDoneState (by decide) (by decide) (by decide) (by decide) (by decide)

/-- C2: on both SSE streams, when a single status fetch fails while the
channel is open, the subscriber receives exactly one `error` event carrying
the failure message, the interval is cleared and the stream closed, no
continuation delivers anything further, and no further poll (in particular
no retry of the fetch) can ever occur in that session. -/
theorem claim_c2_error_ends_session :
    (∀ (acts₁ : List Act) (msg : String) (acts₂ : List Act) (s s'' : Session),
      runMeshy acts₁ = some s → s.ended = false → s.disconnected = false →
      runMeshy (acts₁ ++ Act.pollErr msg :: acts₂) = some s'' →
      s''.delivered = s.delivered ++ [Event.error msg] ∧
      s''.delivered.filter Event.isError = [Event.error msg] ∧
      s''.ended = true ∧ s''.cleared = true ∧
      (∀ pre : List Act,
        runMeshy (acts₁ ++ Act.pollErr msg :: (pre ++ [Act.tick])) = none)) ∧
    (∀ (acts₁ : List Act) (msg : String) (acts₂ : List Act) (s s'' : Session),
      runFashn acts₁ = some s → s.ended = false → s.disconnected = false →
      runFashn (acts₁ ++ Act.pollErr msg :: acts₂) = some s'' →
      s''.delivered = s.delivered ++ [Event.error msg] ∧
      s''.delivered.filter Event.isError = [Event.error msg] ∧
      s''.ended = true ∧ s''.cleared = true ∧
      (∀ pre : List Act,
        runFashn (acts₁ ++ Act.pollErr msg :: (pre ++ [Act.tick])) = none)) := by
  constructor
  · intro acts₁ msg acts₂ s s'' h₁ he hd h₂
    exact error_once_from meshyIsTerminal acts₁ msg acts₂ s s'' h₁ he hd h₂
  · intro acts₁ msg acts₂ s s'' h₁ he hd h₂
    rw [runFashn_eq] at h₁ h₂
    obtain ⟨a, b, c, d, e⟩ :=
      error_once_from fashnIsTerminal acts₁ msg acts₂ s s'' h₁ he hd h₂
    refine ⟨a, b, c, d, fun pre => ?_⟩
    rw [runFashn_eq]
    exact e pre

theorem claim_c2_error_ends_session_witness :
    meshyErrState.delivered = afterOneTick.delivered ++ [Event.error "boom"] ∧
    meshyErrState.delivered.filter Event.isError = [Event.error "boom"] ∧
    meshyErrState.ended = true ∧ meshyErrState.cleared = true ∧
    (∀ pre : List Act,
      runMeshy ([Act.tick] ++ Act.pollErr "boom" :: (pre ++ [Act.tick])) = none) :=
  claim_c2_error_ends_session.1 [Act.tick] "boom" [] afterOneTick meshyErrState
    (by decide) (by decide) (by decide) (by decide)

/-- C3 counterexample: a fetch started before the disconnect is *not*
discarded when it completes — the handler still performs the `res.write`
on the now-closed channel (the `stopped` flag is only checked before the
`await`, never after).  After the trace tick → disconnect → poll
completion, the session log contains a write of the poll result tagged as
made on a closed channel, whereas the claim requires no such write. -/
theorem claim_c3_counterexample :
    runMeshy [Act.tick, Act.disconnect, Act.pollOk dPending] =
      some { stopped := true, cleared := true, disconnected := true,
             inflight := 0, log := [(Event.message dPending, true)] } ∧
    [(Event.message dPending, true)] ≠ ([] : List (Event × Bool)) := by
  decide

/-- C3 amended: after the subscriber disconnects, no further poll is ever
started and no event is ever *delivered* to the subscriber; however, a
fetch that was in flight at the moment of disconnect still has its result
written to the closed response channel when it completes (the write is
discarded by the transport, not by the session logic). -/
theorem claim_c3_disconnect_amended :
    (∀ (acts₁ acts₂ : List Act) (s s'' : Session),
      runMeshy acts₁ = some s →
      runMeshy (acts₁ ++ Act.disconnect :: acts₂) = some s'' →
      s''.delivered = s.delivered ∧
      (∀ pre : List Act,
        runMeshy (acts₁ ++ Act.disconnect :: (pre ++ [Act.tick])) = none)) ∧
    (∀ (acts₁ acts₂ : List Act) (s s'' : Session),
      runFashn acts₁ = some s →
      runFashn (acts₁ ++ Act.disconnect :: acts₂) = some s'' →
      s''.delivered = s.delivered ∧
      (∀ pre : List Act,
        runFashn (acts₁ ++ Act.disconnect :: (pre ++ [Act.tick])) = none)) := by
  constructor
  · intro acts₁ acts₂ s s'' h₁ h₂
    exact disconnect_freezes meshyIsTerminal acts₁ acts₂ s s'' h₁ h₂
  · intro acts₁ acts₂ s s'' h₁ h₂
    rw [runFashn_eq] at h₁ h₂
    obtain ⟨a, b⟩ := disconnect_freezes fashnIsTerminal acts₁ acts₂ s s'' h₁ h₂
    refine ⟨a, fun pre => ?_⟩
    rw [runFashn_eq]
    exact b pre

theorem claim_c3_disconnect_amended_witness :
    Session.delivered (onClose afterOneTick) = afterOneTick.delivered ∧
    (∀ pre : List Act,
      runMeshy ([Act.tick] ++ Act.disconnect :: (pre ++ [Act.tick])) = none) :=
  claim_c3_disconnect_amended.1 [Act.tick] [] afterOneTick (onClose afterOneTick)
    (by decide) (by decide)

/-- C4 counterexample: two consecutive timer ticks with no intervening poll
completion are a valid execution (a fetch that takes longer than the 2000 ms
interval), after which two fetches are outstanding at once — the claimed
"at most one outstanding fetch" bound is violated. -/
theorem claim_c4_counterexample :
    runMeshy [Act.tick, Act.tick] = some { inflight := 2 } ∧ ¬(2 ≤ 1) := by
  decide

/-- C4 amended: each timer tick starts exactly one new fetch whenever the
session is not stopped, regardless of how many fetches are already
outstanding — so fetches can overlap when one outlasts the interval; once
the session is stopped or the interval cleared, no new fetch is ever
started. -/
theorem claim_c4_tick_overlap_amended :
    (∀ s : Session, s.cleared = false → s.stopped = false →
      step meshyIsTerminal s Act.tick = some { s with inflight := s.inflight + 1 }) ∧
    (∀ s : Session, s.cleared = true → step meshyIsTerminal s Act.tick = none) ∧
    (∀ s : Session, s.cleared = false → s.stopped = true →
      step meshyIsTerminal s Act.tick = some s) ∧
    (∀ s : Session, s.cleared = false → s.stopped = false →
      fashnStep s Act.tick = some { s with inflight := s.inflight + 1 }) ∧
    (∀ s : Session, s.cleared = true → fashnStep s Act.tick = none) ∧
    (∀ s : Session, s.cleared = false → s.stopped = true →
      fashnStep s Act.tick = some s) := by
  refine ⟨?_, ?_, ?_, ?_, ?_, ?_⟩ <;>
    intro s h₁ <;>
    first
      | (intro h₂; simp [step, fashnStep, h₁, h₂])
      | simp [step, fashnStep, h₁]

theorem claim_c4_tick_overlap_amended_witness :
    step meshyIsTerminal afterOneTick Act.tick =
      some { afterOneTick with inflight := afterOneTick.inflight + 1 } :=
  claim_c4_tick_overlap_amended.1 afterOneTick (by decide) (by decide)

/-- The polling cadence of both SSE endpoints, server.js lines 181 and
215/239: `setInterval(cb, 2000)`. -/
def intervalMs : Nat := 2000

/-- Under `setInterval` semantics, the timer is armed when the handler runs
and its `(n+1)`-st firing occurs `intervalMs * (n + 1)` milliseconds after
subscription. -/
def tickTime (n : Nat) : Nat := intervalMs * (n + 1)

/-- C5: the repeating status poll is scheduled immediately upon
subscription (the interval is armed, not yet cleared, in the initial
session state), consecutive fetches are a fixed 2000 ms apart (the first
one firing one full interval after subscription), and once the session
finishes (interval cleared) no tick can occur. -/
theorem claim_c5_polling_cadence :
    Session.init.cleared = false ∧
    intervalMs = 2000 ∧
    (∀ n : Nat, tickTime (n + 1) = tickTime n + intervalMs) ∧
    tickTime 0 = intervalMs ∧
    (∀ s : Session, s.cleared = true →
      step meshyIsTerminal s Act.tick = none ∧ fashnStep s Act.tick = none) := by
  refine ⟨rfl, rfl, fun n => ?_, rfl, fun s hc => ?_⟩
  · simp [tickTime, intervalMs]
    ring
  · exact ⟨by simp [step, hc], by simp [fashnStep, hc]⟩

theorem claim_c5_polling_cadence_witness :
    Session.init.cleared = false ∧ tickTime 1 = tickTime 0 + intervalMs ∧
    step meshyIsTerminal meshyDoneState Act.tick = none :=
  ⟨claim_c5_polling_cadence.1,
    claim_c5_polling_cadence.2.2.1 0,
    (claim_c5_polling_cadence.2.2.2.2 meshyDoneState (by decide)).1⟩

/-! ## JavaScript numbers and loosely-typed body values -/

/-- A JavaScript number as the server manipulates it: an exact rational or
one of the special values `NaN`, `Infinity`, `-Infinity`.  The values the
server computes (counts, seeds, polycounts) are exact in double precision,
so no rounding is modelled. -/
inductive JsNum where
  | nan
  | inf
  | negInf
  | val (q : ℚ)
deriving DecidableEq, Repr

/-- Whitespace stripped by JS `ToNumber` before parsing. -/
def isJsWhitespace (c : Char) : Bool :=
  c = ' ' || c = '\t' || c = '\n' || c = '\r' || c = '\x0b' || c = '\x0c'

def trimChars (l : List Char) : List Char :=
  ((l.dropWhile isJsWhitespace).reverse.dropWhile isJsWhitespace).reverse

def digitsVal (l : List Char) : Nat :=
  l.foldl (fun acc c => 10 * acc + (c.toNat - '0'.toNat)) 0

/-- Unsigned decimal literal: digits with an optional fractional part, at
least one digit overall (`"5"`, `"5."`, `".5"`; `"."` alone is not a
number). -/
def parseUnsignedDecimal (l : List Char) : Option ℚ :=
  let intPart := l.takeWhile Char.isDigit
  let rest := l.dropWhile Char.isDigit
  match rest with
  | [] => if intPart.isEmpty then none else some (digitsVal intPart : ℚ)
  | '.' :: frac =>
      if frac.all Char.isDigit && !(intPart.isEmpty && frac.isEmpty) then
        some ((digitsVal intPart : ℚ) + (digitsVal frac : ℚ) / ((10 : ℚ) ^ frac.length))
      else none
  | _ => none

def parseDecimal : List Char → Option ℚ
  | '-' :: r => (parseUnsignedDecimal r).map (fun q => -q)
  | '+' :: r => parseUnsignedDecimal r
  | r => parseUnsignedDecimal r

/-- Model of the JS builtin `Number(s)` for a string argument, restricted
to the literal forms the server can meet: trimmed empty string is `0`,
`±Infinity`, plain (optionally signed) decimal literals; anything else
(including exponent and radix-prefixed forms, which no caller of this
server produces) is `NaN`. -/
def jsNumber (s : String) : JsNum :=
  let t := trimChars s.data
  if t = [] then .val 0
  else if t = "Infinity".data || t = "+Infinity".data then .inf
  else if t = "-Infinity".data then .negInf
  else
    match parseDecimal t with
    | some q => .val q
    | none => .nan

/-- `Math.max(a, c)` for a numeric literal `c`, with `NaN` propagation. -/
def jsMax (a : JsNum) (c : ℚ) : JsNum :=
  match a with
  | .nan => .nan
  | .inf => .inf
  | .negInf => .val c
  | .val q => .val (max q c)

/-- `Math.min(a, c)` for a numeric literal `c`, with `NaN` propagation. -/
def jsMin (a : JsNum) (c : ℚ) : JsNum :=
  match a with
  | .nan => .nan
  | .inf => .val c
  | .negInf => .negInf
  | .val q => .val (min q c)

/-- `num` helper of `POST /fashn/tryon` (server.js line 111):
`v === undefined ? undefined : Number(v)`; a present multipart text field
is a string. -/
def fashnNum (v : Option String) : Option JsNum := v.map jsNumber

/-- `num_samples` of the FASHN payload (server.js line 126):
`Math.min(Math.max(num(req.body.num_samples) ?? 1, 1), 4)`.  The `??`
replaces only `undefined`/`null`, never `NaN`. -/
def fashnNumSamples (v : Option String) : JsNum :=
  jsMin (jsMax ((fashnNum v).getD (.val 1)) 1) 4

/-- A loosely-typed JS value as it appears in a request body or a
submission payload. -/
inductive JSValue where
  | str (s : String)
  | num (n : JsNum)
  | bool (b : Bool)
  | undef
deriving DecidableEq, Repr

/-- The JS builtin `Number(v)` on a loosely-typed value. -/
def toNumber : JSValue → JsNum
  | .str s => jsNumber s
  | .num n => n
  | .bool true => .val 1
  | .bool false => .val 0
  | .undef => .nan

/-- JS truthiness of a loosely-typed value. -/
def jsTruthy : JSValue → Bool
  | .str s => !(s == "")
  | .num n =>
      match n with
      | .val q => !(q == 0)
      | .nan => false
      | _ => true
  | .bool b => b
  | .undef => false

/-- server.js line 59. -/
def meshyBooleanFields : List String :=
  ["should_remesh", "should_texture", "enable_pbr", "is_a_t_pose", "moderation"]

/-- server.js line 60. -/
def meshyNumberFields : List String := ["target_polycount"]

/-- Body of the `POST /image-to-3d` coercion loop for one field
(server.js lines 62–71): recognised boolean fields become
`v === "true" || v === true`, recognised number fields become `Number(v)`,
everything else passes through unchanged. -/
def coerceMeshyField (k : String) (v : JSValue) : JSValue :=
  if meshyBooleanFields.contains k then
    .bool (v == .str "true" || v == .bool true)
  else if meshyNumberFields.contains k then
    .num (toNumber v)
  else v

/-- `bool` helper of `POST /fashn/tryon` (server.js line 110):
`(v === "true" || v === true ? true : v === "false" || v === false ? false : d)`. -/
def fashnBool (v : JSValue) (d : Bool) : Bool :=
  if v == .str "true" || v == .bool true then true
  else if v == .str "false" || v == .bool false then false
  else d

/-! ## Claims C6 and C7 -/

/-- C6 counterexample: a client value that does not parse as a number
(here the string `abc`) makes `Number(...)` return `NaN`, which propagates
through `Math.max`/`Math.min`; the submitted `num_samples` is then `NaN`,
not an integer in `[1,4]`, refuting the claim's universal "regardless of
the client-supplied value". -/
theorem claim_c6_counterexample :
    fashnNumSamples (some "abc") = JsNum.nan ∧
    ¬∃ n : ℤ, fashnNumSamples (some "abc") = JsNum.val (n : ℚ) ∧
      1 ≤ n ∧ n ≤ 4 := by
  refine ⟨by decide, ?_⟩
  rintro ⟨n, h, -, -⟩
  rw [show fashnNumSamples (some "abc") = JsNum.nan from by decide] at h
  exact absurd h (by simp)

/-- C6 amended: an absent `num_samples` yields `1`, and inputs `0`, `10`,
`2` yield `1`, `4`, `2`; in general, whenever the client value parses to a
number `q`, the submitted value is `q` clamped into the inclusive range
`[1,4]` — an integer whenever the input was an integer — but a value that
does not parse to a number yields `NaN` rather than an integer in the
range. -/
theorem claim_c6_num_samples_amended :
    fashnNumSamples none = JsNum.val 1 ∧
    fashnNumSamples (some "0") = JsNum.val 1 ∧
    fashnNumSamples (some "10") = JsNum.val 4 ∧
    fashnNumSamples (some "2") = JsNum.val 2 ∧
    (∀ (v : String) (q : ℚ), jsNumber v = JsNum.val q →
      fashnNumSamples (some v) = JsNum.val (min (max q 1) 4) ∧
      (1 : ℚ) ≤ min (max q 1) 4 ∧ min (max q 1) 4 ≤ (4 : ℚ) ∧
      (∀ n : ℤ, q = (n : ℚ) →
        fashnNumSamples (some v) = JsNum.val ((min (max n 1) 4 : ℤ) : ℚ))) := by
  refine ⟨by decide, by decide, by decide, by decide, ?_⟩
  intro v q hq
  have h1 : fashnNumSamples (some v) = JsNum.val (min (max q 1) 4) := by
    simp [fashnNumSamples, fashnNum, hq, jsMax, jsMin]
  refine ⟨h1, le_min (le_max_right q 1) (by norm_num), min_le_right _ _, ?_⟩
  intro n hn
  have hc : ((min (max n 1) 4 : ℤ) : ℚ) = min (max (n : ℚ) 1) 4 := by
    push_cast
    rfl
  rw [h1, hn, hc]

theorem claim_c6_num_samples_amended_witness :
    jsNumber "2" = JsNum.val 2 ∧
    fashnNumSamples (some "2") = JsNum.val (min (max 2 1) 4) ∧
    fashnNumSamples (some "2") = JsNum.val ((min (max (2 : ℤ) 1) 4 : ℤ) : ℚ) := by
  have h := claim_c6_num_samples_amended.2.2.2.2 "2" 2 (by decide)
  exact ⟨by decide, h.1, h.2.2.2 2 (by norm_num)⟩

/-! ## The `POST /image-to-3d` submission translator (claims C8, C10) -/

/-- An uploaded multipart file as multer hands it to the handler.
`b64` stands for `req.file.buffer.toString("base64")` — the base64 text,
whose encoding itself is a Node builtin we treat as given. -/
structure UploadFile where
  mimetype : Option String
  b64 : String
deriving DecidableEq, Repr

/-- JS `a || d` for an optional string `a` (absent and `""` are falsy). -/
def jsOrStr (v : Option String) (d : String) : String :=
  match v with
  | none => d
  | some s => if s = "" then d else s

/-- server.js lines 50–52: `data:${mime};base64,${base64}` with
`mime = req.file.mimetype || "image/png"`. -/
def dataUri (f : UploadFile) : String :=
  "data:" ++ jsOrStr f.mimetype "image/png" ++ ";base64," ++ f.b64

/-- JS object property assignment `obj[k] = v`: update in place if the key
exists (insertion order preserved), else append. -/
def setKey : List (String × JSValue) → String → JSValue → List (String × JSValue)
  | [], k, v => [(k, v)]
  | (k', v') :: rest, k, v =>
      if k' = k then (k', v) :: rest else (k', v') :: setKey rest k v

/-- JS property read `obj[k]` (first occurrence; payloads built via
`setKey` have unique keys). -/
def getKey : List (String × JSValue) → String → Option JSValue
  | [], _ => none
  | (k', v') :: rest, k => if k' = k then some v' else getKey rest k

/-- Outcome of the `POST /image-to-3d` handler up to the upstream call:
either a `400` response, or the payload handed to
`axios.post("https://api.meshy.ai/openapi/v1/image-to-3d", payload, …)`. -/
inductive SubmitResult where
  | badRequest (msg : String)
  | submit (payload : List (String × JSValue))
deriving DecidableEq, Repr

/-- `POST /image-to-3d` (server.js lines 44–77): resolve the image source
(uploaded file → data URI, else truthy `image_url` body field, else `400`),
then copy every body field through `coerceMeshyField` into the payload,
then default `should_texture` to `true` when still undefined.  The upstream
call happens only on `.submit`; `body = none` models a request without a
parsed body (the `req.body && …` guard), and the coercion loop iterates
over `Object.keys(req.body)` with an empty body defaulting to no keys. -/
def imageTo3d (file : Option UploadFile)
    (body : Option (List (String × JSValue))) : SubmitResult :=
  let payload0 : Option (List (String × JSValue)) :=
    match file with
    | some f => some [("image_url", .str (dataUri f))]
    | none =>
        match body with
        | none => none
        | some b =>
            match getKey b "image_url" with
            | some v => if jsTruthy v then some [("image_url", v)] else none
            | none => none
  match payload0 with
  | none => .badRequest "Provide an image file or image_url"
  | some p0 =>
      let bodyList := body.getD []
      let p1 := bodyList.foldl
        (fun acc kv => setKey acc kv.1 (coerceMeshyField kv.1 kv.2)) p0
      let p2 :=
        match getKey p1 "should_texture" with
        | none => setKey p1 "should_texture" (.bool true)
        | some .undef => setKey p1 "should_texture" (.bool true)
        | some _ => p1
      .submit p2

theorem getKey_setKey_same (p : List (String × JSValue)) (k : String)
    (v : JSValue) : getKey (setKey p k v) k = some v := by
  induction p with
  | nil => simp [setKey, getKey]
  | cons kv rest ih =>
      obtain ⟨k', v'⟩ := kv
      by_cases h : k' = k <;> simp [setKey, getKey, h, ih]

theorem getKey_setKey_other (p : List (String × JSValue)) (k k' : String)
    (v : JSValue) (h : k' ≠ k) : getKey (setKey p k v) k' = getKey p k' := by
  have h' : ¬(k = k') := fun hek => h hek.symm
  induction p with
  | nil => simp [setKey, getKey, h']
  | cons kv rest ih =>
      obtain ⟨k₀, v₀⟩ := kv
      simp only [setKey]
      by_cases h₀ : k₀ = k
      · rw [if_pos h₀]
        subst h₀
        simp [getKey, h']
      · rw [if_neg h₀]
        simp only [getKey]
        by_cases h₁ : k₀ = k'
        · rw [if_pos h₁, if_pos h₁]
        · rw [if_neg h₁, if_neg h₁]
          exact ih

/-- The coercion loop leaves a key untouched when no body entry carries
that key. -/
theorem foldl_setKey_getKey_of_not_mem (b : List (String × JSValue))
    (p : List (String × JSValue)) (k : String)
    (h : k ∉ b.map Prod.fst) :
    getKey (b.foldl (fun acc kv => setKey acc kv.1 (coerceMeshyField kv.1 kv.2)) p) k =
      getKey p k := by
  induction b generalizing p with
  | nil => rfl
  | cons kv rest ih =>
      obtain ⟨k₀, v₀⟩ := kv
      simp only [List.map_cons, List.mem_cons, not_or] at h
      simp only [List.foldl_cons]
      rw [ih _ h.2, getKey_setKey_other p k₀ k (coerceMeshyField k₀ v₀) h.1]

/-- `image_url` is in neither recognised-field list, so the coercion loop
passes it through unchanged. -/
theorem coerceMeshyField_image_url (v : JSValue) :
    coerceMeshyField "image_url" v = v := by
  simp [coerceMeshyField, meshyBooleanFields, meshyNumberFields]

/-- C8: a `POST /image-to-3d` request with no uploaded file and no
`image_url` body field (or no parsed body at all) is answered `400` with
the handler's error message, and no submission payload — hence no upstream
provider call — is produced. -/
theorem claim_c8_no_image_400 :
    (∀ body : List (String × JSValue), getKey body "image_url" = none →
      imageTo3d none (some body) = .badRequest "Provide an image file or image_url" ∧
      (∀ p, imageTo3d none (some body) ≠ .submit p)) ∧
    imageTo3d none none = .badRequest "Provide an image file or image_url" ∧
    (∀ p, imageTo3d none none ≠ .submit p) := by
  refine ⟨fun body h => ?_, by decide, fun p hp => by simp [imageTo3d] at hp⟩
  have hres : imageTo3d none (some body) =
      .badRequest "Provide an image file or image_url" := by
    simp [imageTo3d, h]
  exact ⟨hres, fun p hp => by rw [hres] at hp; exact absurd hp (by simp)⟩

theorem claim_c8_no_image_400_witness :
    imageTo3d none (some [("mode", JSValue.str "hard")]) =
      SubmitResult.badRequest "Provide an image file or image_url" :=
  (claim_c8_no_image_400.1 [("mode", JSValue.str "hard")] (by decide)).1

/-- C10: when a request supplies both an uploaded file and an `image_url`
body field, the coercion loop copies the body's `image_url` into the
payload after the data URI was installed, so the submitted `image_url` is
the body's value, not the uploaded file's data URI. -/
theorem claim_c10_body_image_url_wins :
    ∀ (f : UploadFile) (b₁ b₂ : List (String × JSValue)) (u : JSValue),
      "image_url" ∉ b₂.map Prod.fst →
      ∃ p, imageTo3d (some f) (some (b₁ ++ ("image_url", u) :: b₂)) =
          SubmitResult.submit p ∧
        getKey p "image_url" = some u := by
  intro f b₁ b₂ u h₂
  simp only [imageTo3d, Option.getD]
  set p1 := (b₁ ++ ("image_url", u) :: b₂).foldl
    (fun acc kv => setKey acc kv.1 (coerceMeshyField kv.1 kv.2))
    [("image_url", JSValue.str (dataUri f))] with hp1
  have hget : getKey p1 "image_url" = some u := by
    rw [hp1, List.foldl_append, List.foldl_cons]
    rw [foldl_setKey_getKey_of_not_mem _ _ _ h₂]
    rw [coerceMeshyField_image_url, getKey_setKey_same]
  cases hst : getKey p1 "should_texture" with
  | none =>
      refine ⟨setKey p1 "should_texture" (.bool true), ?_, ?_⟩
      · simp [hst]
      · rw [getKey_setKey_other _ _ _ _ (by decide)]
        exact hget
  | some w =>
      cases w with
      | undef =>
          refine ⟨setKey p1 "should_texture" (.bool true), ?_, ?_⟩
          · simp [hst]
          · rw [getKey_setKey_other _ _ _ _ (by decide)]
            exact hget
      | str s => exact ⟨p1, by simp [hst], hget⟩
      | num n => exact ⟨p1, by simp [hst], hget⟩
      | bool b => exact ⟨p1, by simp [hst], hget⟩

theorem claim_c10_body_image_url_wins_witness :
    "image_url" ∉ ([] : List (String × JSValue)).map Prod.fst ∧
    ∃ p, imageTo3d (some ⟨some "image/png", "QUJD"⟩)
        (some ([] ++ ("image_url", JSValue.str "https://x/y.png") :: [])) =
        SubmitResult.submit p ∧
      getKey p "image_url" = some (JSValue.str "https://x/y.png") :=
  ⟨by simp,
    claim_c10_body_image_url_wins ⟨some "image/png", "QUJD"⟩ [] []
      (JSValue.str "https://x/y.png") (by simp)⟩

/-! ## The `GET /download` filename (claim C9) -/

/-- `decoded.split("?")[0]` (server.js line 255): everything before the
first `?`. -/
def stripQuery (s : String) : String :=
  ⟨s.data.takeWhile (fun c => c ≠ '?')⟩

/-- POSIX `path.basename` on the character list: drop trailing slashes,
then take the suffix after the last slash (`""` stays `""`, all-slash
strings give `"/"`). -/
def basenameChars (l : List Char) : List Char :=
  let l' := (l.reverse.dropWhile (fun c => c = '/')).reverse
  if l' = [] then (if l = [] then [] else ['/'])
  else (l'.reverse.takeWhile (fun c => c ≠ '/')).reverse

/-- Node `path.basename`. -/
def pathBasename (s : String) : String := ⟨basenameChars s.data⟩

/-- server.js line 255: `path.basename(decoded.split("?")[0])` applied to
the decoded URL. -/
def downloadFilename (decoded : String) : String :=
  pathBasename (stripQuery decoded)

/-- `decoded` cut at the first `#` — the URL without its fragment. -/
def stripFragment (s : String) : String :=
  ⟨s.data.takeWhile (fun c => c ≠ '#')⟩

/-- Stated from the spec's words, for comparison with the code: the last
path segment of the decoded URL with the fragment and the query both
stripped. -/
def specFilename (decoded : String) : String :=
  pathBasename (stripQuery (stripFragment decoded))

/-- C9 counterexample: the handler only splits on `?`, so a fragment
without a query survives into the filename: a URL ending in `/a.png#frag`
yields filename `a.png#frag`, not the claimed `a.png`. -/
theorem claim_c9_counterexample :
    downloadFilename "https://x/a.png#frag" = "a.png#frag" ∧
    specFilename "https://x/a.png#frag" = "a.png" ∧
    ("a.png#frag" : String) ≠ "a.png" := by
  refine ⟨by decide, by decide, by decide⟩

theorem takeWhile_eq_self_of_all {p : Char → Bool} {l : List Char}
    (h : ∀ c ∈ l, p c = true) : l.takeWhile p = l := by
  induction l with
  | nil => rfl
  | cons c rest ih =>
      rw [List.takeWhile_cons, h c (by simp)]
      simp [ih fun c hc => h c (by simp [hc])]

/-- C9 amended: the filename is the last path segment of the decoded URL
with the query stripped; the fragment is removed only when it follows a
`?` (being part of the split-off tail), so on URLs without a bare `#` the
code agrees with the spec's "fragment/query stripped", and a query is
indeed stripped. -/
theorem claim_c9_filename_amended :
    (∀ s : String, '#' ∉ s.data → downloadFilename s = specFilename s) ∧
    downloadFilename "https://x/a.png?x=1" = "a.png" ∧
    downloadFilename "https://x/a.png?x=1#frag" = "a.png" := by
  refine ⟨fun s h => ?_, by decide, by decide⟩
  have hfr : stripFragment s = s := by
    show (⟨s.data.takeWhile _⟩ : String) = s
    rw [takeWhile_eq_self_of_all fun c hc => by
      simp only [decide_eq_true_eq]
      exact fun hcq => h (hcq ▸ hc)]
  simp only [downloadFilename, specFilename, hfr]

theorem claim_c9_filename_amended_witness :
    '#' ∉ ("https://x/a.png?x=1" : String).data ∧
    downloadFilename "https://x/a.png?x=1" = specFilename "https://x/a.png?x=1" :=
  ⟨by decide, claim_c9_filename_amended.1 "https://x/a.png?x=1" (by decide)⟩

/-! ## The `POST /fashn/tryon` payload literal (claim C7) -/

/-- A value in the FASHN try-on payload object: a plain JS value, or the
nested `inputs` object `{ model_image, garment_image }`. -/
inductive FashnValue where
  | js (v : JSValue)
  | inputs (model_image : String) (garment_image : String)
deriving DecidableEq, Repr

/-- Property read on the FASHN payload object. -/
def fashnGetField : List (String × FashnValue) → String → Option FashnValue
  | [], _ => none
  | (k', v') :: rest, k => if k' = k then some v' else fashnGetField rest k

/-- Multipart text-field lookup on `req.body` (multer stores text fields
as strings). -/
def bodyField : List (String × String) → String → Option String
  | [], _ => none
  | (k', v') :: rest, k => if k' = k then some v' else bodyField rest k

/-- A body field as the JS expression `req.body.k` sees it: a string when
present, `undefined` when absent. -/
def fieldVal (v : Option String) : JSValue :=
  match v with
  | none => .undef
  | some s => .str s

/-- server.js lines 102–107: `data:${mime};base64,${b64}` with
`mime = file.mimetype || "image/jpeg"` for the try-on uploads. -/
def fashnDataUri (f : UploadFile) : String :=
  "data:" ++ jsOrStr f.mimetype "image/jpeg" ++ ";base64," ++ f.b64

/-- The keys of the FASHN payload object literal, in source order. -/
def fashnPayloadKeys : List String :=
  ["model_name", "inputs", "category", "segmentation_free",
   "moderation_level", "garment_photo_type", "mode", "seed", "num_samples",
   "output_format", "return_base64"]

/-- The `POST /fashn/tryon` submission payload (server.js lines 113–129):
a fixed object literal.  Each field reads one recognised body field with
the documented default (`||` for string defaults, the `bool`/`num` helpers
for booleans and numbers); no other body field is read. -/
def fashnTryonPayload (person garment : UploadFile)
    (b : List (String × String)) : List (String × FashnValue) :=
  [("model_name", .js (.str "tryon-v1.6")),
   ("inputs", .inputs (fashnDataUri person) (fashnDataUri garment)),
   ("category", .js (.str (jsOrStr (bodyField b "category") "auto"))),
   ("segmentation_free",
     .js (.bool (fashnBool (fieldVal (bodyField b "segmentation_free")) true))),
   ("moderation_level",
     .js (.str (jsOrStr (bodyField b "moderation_level") "permissive"))),
   ("garment_photo_type",
     .js (.str (jsOrStr (bodyField b "garment_photo_type") "auto"))),
   ("mode", .js (.str (jsOrStr (bodyField b "mode") "balanced"))),
   ("seed", .js (.num ((fashnNum (bodyField b "seed")).getD (.val 42)))),
   ("num_samples", .js (.num (fashnNumSamples (bodyField b "num_samples")))),
   ("output_format", .js (.str (jsOrStr (bodyField b "output_format") "png"))),
   ("return_base64",
     .js (.bool (fashnBool (fieldVal (bodyField b "return_base64")) false)))]

/-- Any key outside the fixed literal is absent from the FASHN payload,
whatever the body supplied. -/
theorem fashnTryonPayload_drops (person garment : UploadFile)
    (b : List (String × String)) (k : String) (h : k ∉ fashnPayloadKeys) :
    fashnGetField (fashnTryonPayload person garment b) k = none := by
  simp only [fashnPayloadKeys, List.mem_cons, not_or] at h
  obtain ⟨h₁, h₂, h₃, h₄, h₅, h₆, h₇, h₈, h₉, h₁₀, h₁₁, -⟩ := h
  simp only [fashnTryonPayload, fashnGetField]
  rw [if_neg fun he => h₁ he.symm, if_neg fun he => h₂ he.symm,
    if_neg fun he => h₃ he.symm, if_neg fun he => h₄ he.symm,
    if_neg fun he => h₅ he.symm, if_neg fun he => h₆ he.symm,
    if_neg fun he => h₇ he.symm, if_neg fun he => h₈ he.symm,
    if_neg fun he => h₉ he.symm, if_neg fun he => h₁₀ he.symm,
    if_neg fun he => h₁₁ he.symm]

/-- C7 counterexample: an unrecognised body field (`foo=bar`) supplied to
`POST /fashn/tryon` does *not* pass through into the submission payload —
the payload is a fixed object literal and never reads it — refuting the
claim's "unrecognized fields pass through unchanged" for every submission
request. -/
theorem claim_c7_counterexample :
    fashnGetField
        (fashnTryonPayload ⟨some "image/jpeg", "AAAA"⟩ ⟨some "image/jpeg", "BBBB"⟩
          [("foo", "bar")]) "foo" = none ∧
    bodyField [("foo", "bar")] "foo" = some "bar" ∧
    "foo" ∉ fashnPayloadKeys := by
  decide

/-- C7 amended: recognised boolean fields become native booleans (never
strings) on both endpoints — the Meshy loop maps `"true"`/`"false"` and
native booleans accordingly, and the FASHN payload's boolean fields go
through the `bool` helper — and recognised number fields become
`Number(v)`; unrecognised fields pass through unchanged on
`POST /image-to-3d` only, while `POST /fashn/tryon` builds its payload
from a fixed field list and silently drops unrecognised body fields. -/
theorem claim_c7_field_coercion_amended :
    (∀ (k : String) (v : JSValue), meshyBooleanFields.contains k = true →
      (v = .str "true" → coerceMeshyField k v = .bool true) ∧
      (v = .str "false" → coerceMeshyField k v = .bool false) ∧
      (∀ b : Bool, v = .bool b → coerceMeshyField k v = .bool b) ∧
      (∀ s : String, coerceMeshyField k v ≠ .str s)) ∧
    (∀ (k : String) (v : JSValue), meshyBooleanFields.contains k = false →
      meshyNumberFields.contains k = true →
      coerceMeshyField k v = .num (toNumber v)) ∧
    (∀ (k : String) (v : JSValue), meshyBooleanFields.contains k = false →
      meshyNumberFields.contains k = false → coerceMeshyField k v = v) ∧
    (∀ d : Bool,
      fashnBool (.str "true") d = true ∧ fashnBool (.str "false") d = false ∧
      (∀ b : Bool, fashnBool (.bool b) d = b)) ∧
    (∀ (person garment : UploadFile) (b : List (String × String)),
      (fashnTryonPayload person garment b).map Prod.fst = fashnPayloadKeys) ∧
    (∀ (person garment : UploadFile) (b : List (String × String)) (k : String),
      k ∉ fashnPayloadKeys →
      fashnGetField (fashnTryonPayload person garment b) k = none) ∧
    (∀ (person garment : UploadFile) (b : List (String × String)),
      fashnGetField (fashnTryonPayload person garment b) "segmentation_free" =
        some (.js (.bool (fashnBool (fieldVal (bodyField b "segmentation_free")) true))) ∧
      fashnGetField (fashnTryonPayload person garment b) "return_base64" =
        some (.js (.bool (fashnBool (fieldVal (bodyField b "return_base64")) false)))) := by
  refine ⟨?_, ?_, ?_, ?_, ?_, ?_, ?_⟩
  · intro k v hk
    refine ⟨?_, ?_, ?_, ?_⟩
    · rintro rfl
      simp only [coerceMeshyField, hk, if_true]
      decide
    · rintro rfl
      simp only [coerceMeshyField, hk, if_true]
      decide
    · rintro b rfl
      cases b <;> (simp only [coerceMeshyField, hk, if_true]; decide)
    · intro s
      simp only [coerceMeshyField, hk, if_true]
      simp
  · intro k v hb hn
    simp only [coerceMeshyField, hb, hn, if_false]
    simp
  · intro k v hb hn
    simp only [coerceMeshyField, hb, hn, if_false]
    simp
  · intro d
    exact ⟨by cases d <;> decide, by cases d <;> decide,
      fun b => by cases b <;> cases d <;> decide⟩
  · intro person garment b
    rfl
  · intro person garment b k h
    exact fashnTryonPayload_drops person garment b k h
  · intro person garment b
    exact ⟨rfl, rfl⟩

theorem claim_c7_field_coercion_amended_witness :
    coerceMeshyField "should_remesh" (.str "true") = .bool true ∧
    coerceMeshyField "target_polycount" (.str "30000") =
      .num (toNumber (.str "30000")) ∧
    coerceMeshyField "unknown_field" (.str "keep") = .str "keep" ∧
    fashnBool (.str "false") true = false ∧
    (fashnTryonPayload ⟨some "image/png", "QQ"⟩ ⟨some "image/png", "Rg"⟩
        [("category", "tops")]).map Prod.fst = fashnPayloadKeys ∧
    fashnGetField
        (fashnTryonPayload ⟨some "image/png", "QQ"⟩ ⟨some "image/png", "Rg"⟩
          [("category", "tops")]) "unknown_field" = none :=
  ⟨(claim_c7_field_coercion_amended.1 "should_remesh" (.str "true") (by decide)).1 rfl,
   claim_c7_field_coercion_amended.2.1 "target_polycount" (.str "30000")
     (by decide) (by decide),
   claim_c7_field_coercion_amended.2.2.1 "unknown_field" (.str "keep")
     (by decide) (by decide),
   (claim_c7_field_coercion_amended.2.2.2.1 true).2.1,
   claim_c7_field_coercion_amended.2.2.2.2.1 ⟨some "image/png", "QQ"⟩
     ⟨some "image/png", "Rg"⟩ [("category", "tops")],
   claim_c7_field_coercion_amended.2.2.2.2.2.1 ⟨some "image/png", "QQ"⟩
     ⟨some "image/png", "Rg"⟩ [("category", "tops")] "unknown_field" (by decide)⟩

end WeWear
